import Mathlib

/-!
A shallow embedding of `sleep.py`, a FastAPI + SQLite sleep-tracking CRUD
service, together with proofs about its behaviour.

Modelling conventions:
* SQLite tables are Lean lists; autoincrement ids are threaded explicitly.
* Python `float` is modelled as `ℚ` (exact arithmetic).
* A handler returns a `Resp` paired with the post-request database state:
  `Resp.ok` is a normal JSON reply, `Resp.httpError c d` is a raised
  `HTTPException(c, d)` handed back to the client, and `Resp.uncaught m` is
  an exception escaping the handler (FastAPI then answers with a generic
  HTTP 500 response).
-/

/-- Leap-year test of the proleptic Gregorian calendar, as Python's
`datetime` uses it. -/
def isLeapYear (y : ℤ) : Bool := (y % 4 == 0 && y % 100 != 0) || y % 400 == 0

/-- Calendar-correct number of days of month `m` (1-12) of year `y`. -/
def daysInMonth (y : ℤ) (m : ℕ) : ℕ :=
  if m = 2 then (if isLeapYear y then 29 else 28)
  else if m = 4 ∨ m = 6 ∨ m = 9 ∨ m = 11 then 30
  else 31

/-- A parsed `datetime` value (calendar date plus wall-clock time). -/
structure PyDateTime where
  year : ℕ
  month : ℕ
  day : ℕ
  hour : ℕ
  minute : ℕ
deriving DecidableEq

def digitVal (c : Char) : ℕ := c.toNat - 48

/-- Greedily read one or two ASCII digits: the `_strptime` regexes for
`%m`, `%d`, `%H`, `%M` accept an optional zero pad. -/
def takeDigits2 : List Char → Option (ℕ × List Char)
  | c1 :: c2 :: rest =>
    if c1.isDigit then
      if c2.isDigit then some (digitVal c1 * 10 + digitVal c2, rest)
      else some (digitVal c1, c2 :: rest)
    else none
  | [c1] => if c1.isDigit then some (digitVal c1, []) else none
  | [] => none

/-- Read exactly four ASCII digits (`%Y`). -/
def takeDigits4 : List Char → Option (ℕ × List Char)
  | a :: b :: c :: d :: rest =>
    if a.isDigit && b.isDigit && c.isDigit && d.isDigit then
      some (((digitVal a * 10 + digitVal b) * 10 + digitVal c) * 10 + digitVal d, rest)
    else none
  | _ => none

def expectChar (c : Char) : List Char → Option (List Char)
  | x :: rest => if x = c then some rest else none
  | [] => none

/-- `datetime.strptime(s, '%Y-%m-%d %H:%M')`: `none` models the raised
`ValueError`.  The whole string must be consumed, and out-of-range
components (month 13, day 31 in April, year 0, …) are rejected exactly as
`datetime` construction rejects them. -/
def strptime (s : String) : Option PyDateTime := do
  let (y, r1) ← takeDigits4 s.toList
  let r2 ← expectChar '-' r1
  let (mo, r3) ← takeDigits2 r2
  let r4 ← expectChar '-' r3
  let (d, r5) ← takeDigits2 r4
  let r6 ← expectChar ' ' r5
  let (h, r7) ← takeDigits2 r6
  let r8 ← expectChar ':' r7
  let (mi, r9) ← takeDigits2 r8
  if r9 = [] ∧ 1 ≤ y ∧ 1 ≤ mo ∧ mo ≤ 12 ∧ 1 ≤ d ∧ d ≤ daysInMonth (y : ℤ) mo
      ∧ h ≤ 23 ∧ mi ≤ 59 then
    some ⟨y, mo, d, h, mi⟩
  else none

/-- Days in the proleptic Gregorian calendar strictly before January 1 of
year `y` (for `y ≥ 1`). -/
def daysBeforeYear (y : ℕ) : ℕ :=
  365 * (y - 1) + (y - 1) / 4 + (y - 1) / 400 - (y - 1) / 100

/-- Days of year `y` strictly before month `m`. -/
def daysBeforeMonth (y : ℕ) (m : ℕ) : ℕ :=
  ((List.range (m - 1)).map (fun i => daysInMonth (y : ℤ) (i + 1))).foldl (· + ·) 0

/-- Absolute minute count of a parsed timestamp; `datetime` subtraction is
the difference of these counts. -/
def toMinutes (t : PyDateTime) : ℕ :=
  (daysBeforeYear t.year + daysBeforeMonth t.year t.month + (t.day - 1)) * 1440
    + t.hour * 60 + t.minute

/-- `(wake_time - sleep_time).total_seconds() / 3600`, in exact arithmetic. -/
def durationHours (sleep wake : PyDateTime) : ℚ :=
  ((((toMinutes wake : ℤ) - (toMinutes sleep : ℤ)) * 60 : ℤ) : ℚ) / 3600

/-- ASCII lower-casing, as SQLite's case-insensitive `LIKE` applies it. -/
def lowerAscii (c : Char) : Char :=
  if 'A' ≤ c && c ≤ 'Z' then Char.ofNat (c.toNat + 32) else c

/-- All suffixes of a list, longest first. -/
def sfx : List Char → List (List Char)
  | [] => [[]]
  | c :: s => (c :: s) :: sfx s

/-- SQLite `LIKE` pattern matching: `%` matches any sequence, `_` matches any
single character, any other character matches ASCII-case-insensitively. -/
def likeMatch : List Char → List Char → Bool
  | [], s => s.isEmpty
  | p :: ps, s =>
    if p = '%' then (sfx s).any (fun t => likeMatch ps t)
    else
      match s with
      | [] => false
      | c :: s' =>
        if p = '_' then likeMatch ps s'
        else lowerAscii p == lowerAscii c && likeMatch ps s'

structure SleepRow where
  id : ℕ
  sleep_time : String
  wake_time : String
  duration : ℚ
deriving DecidableEq

structure HistRow where
  sleep_time : String
  wake_time : String
  duration : ℚ
deriving DecidableEq

structure RecRow where
  id : ℕ
  recommendation : String
deriving DecidableEq

/-- The SQLite database of `sleep_sched.db`: the four tables plus the
autoincrement id counters. -/
structure DB where
  sleep_logs : List SleepRow
  history : List HistRow
  sleep_recommendations : List RecRow
  recommendation_history : List String
  nextLogId : ℕ
  nextRecId : ℕ
deriving DecidableEq

def emptyDB : DB := ⟨[], [], [], [], 1, 1⟩

/-- Request body of POST/PUT `/sleep_logs` (`class SleepLog(BaseModel)`);
`duration` is the client-supplied value. -/
structure SleepLog where
  sleep_time : String
  wake_time : String
  duration : ℚ
deriving DecidableEq

/-- Request body of POST `/sleep_goals/monthly_sleep_goal`. -/
structure SleepGoal where
  year : ℤ
  month : ℤ
  hours_per_night : ℚ
deriving DecidableEq

/-- Outcome of one request, as observed by the HTTP client. -/
inductive Resp (α : Type) where
  | ok : α → Resp α
  | httpError : ℕ → String → Resp α
  | uncaught : String → Resp α
deriving DecidableEq

def isClientError {α : Type} : Resp α → Bool
  | .httpError code _ => decide (400 ≤ code ∧ code < 500)
  | _ => false

def isUncaught {α : Type} : Resp α → Bool
  | .uncaught _ => true
  | _ => false

/-- The `ValueError` message of a failed `strptime`. -/
def strptimeErr (s : String) : String :=
  "time data '" ++ s ++ "' does not match format '%Y-%m-%d %H:%M'"

/-- `@app.post("/sleep_logs")`: parse both timestamps (a parse failure is a
`ValueError` raised before the `try` block, hence uncaught), recompute the
duration from the parsed values, and insert the raw strings plus the
computed duration.  The client-supplied `log.duration` is never read. -/
def add_sleep_log (log : SleepLog) (db : DB) : Resp String × DB :=
  match strptime log.sleep_time with
  | none => (.uncaught (strptimeErr log.sleep_time), db)
  | some st =>
    match strptime log.wake_time with
    | none => (.uncaught (strptimeErr log.wake_time), db)
    | some wt =>
      let d := durationHours st wt
      (.ok "Sleep log added successfully!",
        { db with
            sleep_logs := db.sleep_logs ++ [⟨db.nextLogId, log.sleep_time, log.wake_time, d⟩],
            nextLogId := db.nextLogId + 1 })

/-- The rows produced by `SELECT * FROM sleep_logs WHERE sleep_time LIKE ?`
with the bound value `f"{date}%"`. -/
def sleepLogsByDate (date : String) (db : DB) : List SleepRow :=
  db.sleep_logs.filter (fun r => likeMatch (date ++ "%").toList r.sleep_time.toList)

/-- `@app.get("/sleep_logs/{date}")`. -/
def get_sleep_logs_by_date (date : String) (db : DB) : Resp (List SleepRow) × DB :=
  (.ok (sleepLogsByDate date db), db)

/-- `@app.put("/sleep_logs/{log_id}")`.  The `raise HTTPException(404)` for a
missing id happens inside the handler's own `try`, so the blanket
`except Exception as e` catches it, rolls back, and re-raises
`HTTPException(500, str(e))` with `str(e) = "404: Sleep log not found"`.
A `strptime` failure inside the `try` is converted the same way. -/
def update_sleep_log (log_id : ℕ) (log : SleepLog) (db : DB) : Resp String × DB :=
  match db.sleep_logs.find? (fun r => r.id == log_id) with
  | none => (.httpError 500 "404: Sleep log not found", db)
  | some _ =>
    match strptime log.sleep_time with
    | none => (.httpError 500 (strptimeErr log.sleep_time), db)
    | some st =>
      match strptime log.wake_time with
      | none => (.httpError 500 (strptimeErr log.wake_time), db)
      | some wt =>
        let d := durationHours st wt
        (.ok "Sleep log updated successfully!",
          { db with
              sleep_logs := db.sleep_logs.map (fun r =>
                if r.id == log_id then ⟨r.id, log.sleep_time, log.wake_time, d⟩ else r) })

/-- `@app.delete("/sleep_logs/{log_id}")`.  The row is fetched and a history
copy inserted before any not-found check: when `fetchone()` returns `None`,
`history[1]` raises `TypeError("'NoneType' object is not subscriptable")`,
which the `except` turns into `HTTPException(500, str(e))` after rolling back.
When the row exists, the history insert and delete are committed; the
post-commit `rowcount == 0` check then cannot fire (and its `rollback` would
not undo the committed statements, hence the committed state in that dead
branch). -/
def delete_sleep_log (log_id : ℕ) (db : DB) : Resp String × DB :=
  match db.sleep_logs.find? (fun r => r.id == log_id) with
  | none => (.httpError 500 "'NoneType' object is not subscriptable", db)
  | some row =>
    let db' := { db with
      sleep_logs := db.sleep_logs.filter (fun r => !(r.id == log_id)),
      history := db.history ++ [⟨row.sleep_time, row.wake_time, row.duration⟩] }
    if db.sleep_logs.countP (fun r => r.id == log_id) == 0 then
      (.httpError 500 "404: Sleep log not found", db')
    else
      (.ok "Sleep log deleted successfully!", db')

/-- `@app.get("/sleep_logs/average_duration")`: `AVG(duration)` is NULL on an
empty table, and `fetchone()["average_duration"] or 0` turns that into 0. -/
def get_average_sleep_duration (db : DB) : Resp ℚ × DB :=
  match db.sleep_logs with
  | [] => (.ok 0, db)
  | l => (.ok ((l.map (fun r => r.duration)).foldl (· + ·) 0 / (l.length : ℚ)), db)

/-- `@app.get("/sleep_logs/longest_sleep")`: `MAX(duration)` with the same
NULL-to-0 treatment. -/
def get_longest_sleep_duration (db : DB) : Resp ℚ × DB :=
  match db.sleep_logs.map (fun r => r.duration) with
  | [] => (.ok 0, db)
  | d :: ds => (.ok (ds.foldl max d), db)

/-- `@app.get("/sleep_logs/shortest_sleep")`: `MIN(duration)` with the same
NULL-to-0 treatment. -/
def get_shortest_sleep_duration (db : DB) : Resp ℚ × DB :=
  match db.sleep_logs.map (fun r => r.duration) with
  | [] => (.ok 0, db)
  | d :: ds => (.ok (ds.foldl min d), db)

/-- SQLite `strftime` component extraction from a stored `TEXT` timestamp.
Modelled for canonical zero-padded "YYYY-MM-DD HH:MM" values; anything else
yields `none` (SQLite's NULL).  SQLite's normalisation of out-of-range
components is not modelled; no stored value the claims exercise is out of
range. -/
def parseStored (s : String) : Option (String × String × String) :=
  match s.toList with
  | [y1, y2, y3, y4, s1, m1, m2, s2, d1, d2, s3, h1, h2, s4, n1, n2] =>
    if (y1.isDigit && y2.isDigit && y3.isDigit && y4.isDigit
          && m1.isDigit && m2.isDigit && d1.isDigit && d2.isDigit
          && h1.isDigit && h2.isDigit && n1.isDigit && n2.isDigit)
        && (s1 == '-' && s2 == '-' && s3 == ' ' && s4 == ':') then
      some (String.mk [y1, y2, y3, y4], String.mk [m1, m2], String.mk [h1, h2])
    else none
  | _ => none

/-- `strftime('%H', sleep_time)` / `strftime('%H', wake_time)`. -/
def sqliteHourOf (s : String) : Option String :=
  (parseStored s).map (fun t => t.2.2)

/-- The `GROUP BY hour` result rows: one `(hour, COUNT(*))` pair per distinct
extracted hour value. -/
def hourGroups (f : SleepRow → Option String) (logs : List SleepRow) :
    List (Option String × ℕ) :=
  ((logs.map f).dedup).map (fun h => (h, logs.countP (fun r => f r == h)))

/-- `ORDER BY count DESC LIMIT 1` followed by `fetchone()`: `none` on an
empty grouping.  SQLite's tie-break among equal counts is unspecified; the
model keeps the first group with the maximal count. -/
def topGroup (gs : List (Option String × ℕ)) : Option (Option String × ℕ) :=
  match gs with
  | [] => none
  | g :: rest => some (rest.foldl (fun best x => if best.2 < x.2 then x else best) g)

/-- `@app.get("/sleep_logs/frequent_sleep_time")`: on an empty table the
grouped query yields no row, `fetchone()` gives `None`, and
`frequent_time["hour"]` raises a `TypeError` that nothing catches (the
handler has only `try`/`finally`). -/
def get_frequent_sleep_time (db : DB) : Resp (Option String × ℕ) × DB :=
  match topGroup (hourGroups (fun r => sqliteHourOf r.sleep_time) db.sleep_logs) with
  | none => (.uncaught "'NoneType' object is not subscriptable", db)
  | some g => (.ok g, db)

/-- `@app.get("/sleep_logs/frequent_wake_time")`: same shape as the frequent
sleep hour query, over `wake_time`. -/
def get_frequent_wake_time (db : DB) : Resp (Option String × ℕ) × DB :=
  match topGroup (hourGroups (fun r => sqliteHourOf r.wake_time) db.sleep_logs) with
  | none => (.uncaught "'NoneType' object is not subscriptable", db)
  | some g => (.ok g, db)

/-- `@app.post("/recommendations")`. -/
def add_recommendations (recommendation : String) (db : DB) : Resp String × DB :=
  (.ok "Recommendation added successfully",
    { db with
        sleep_recommendations := db.sleep_recommendations ++ [⟨db.nextRecId, recommendation⟩],
        nextRecId := db.nextRecId + 1 })

/-- `@app.put("/recommendations/{recommendation_id}")`.  As in
`update_sleep_log`, the `raise HTTPException(404)` is caught by the
handler's own `except Exception` and re-raised as
`HTTPException(500, f"Error: {e}")`. -/
def update_recommendation (recommendation_id : ℕ) (new_recommendation : String)
    (db : DB) : Resp String × DB :=
  if db.sleep_recommendations.countP (fun r => r.id == recommendation_id) == 0 then
    (.httpError 500 "Error: 404: Recommendation not found", db)
  else
    (.ok "Recommendation updated successfully",
      { db with
          sleep_recommendations := db.sleep_recommendations.map (fun r =>
            if r.id == recommendation_id then ⟨r.id, new_recommendation⟩ else r) })

/-- `@app.delete("/recommendations/{recommendation_id}")`.  `rec[1]` on the
`None` fetched for a missing id raises a `TypeError` that the `except`
converts to `HTTPException(500, f"Error: {e}")`.  Unlike the sleep-log
delete, the `rowcount` check here precedes `commit()`, so its rollback
branch restores the original state (the branch is still unreachable once a
row was fetched). -/
def delete_recommendation (recommendation_id : ℕ) (db : DB) : Resp String × DB :=
  match db.sleep_recommendations.find? (fun r => r.id == recommendation_id) with
  | none => (.httpError 500 "Error: 'NoneType' object is not subscriptable", db)
  | some row =>
    if db.sleep_recommendations.countP (fun r => r.id == recommendation_id) == 0 then
      (.httpError 500 "Error: 404: Recommendation not found", db)
    else
      (.ok "Recommendation deleted successfully",
        { db with
            sleep_recommendations :=
              db.sleep_recommendations.filter (fun r => !(r.id == recommendation_id)),
            recommendation_history := db.recommendation_history ++ [row.recommendation] })

/-- Decimal digits of the fractional part `f` (with `0 ≤ f < 1`), up to the
given fuel; stops once the remainder is exactly zero. -/
def fracDigits : ℚ → ℕ → List ℕ
  | _, 0 => []
  | f, k + 1 =>
    if f = 0 then []
    else
      let d := (Rat.floor (f * 10)).toNat
      d :: fracDigits (f * 10 - (d : ℚ)) k

/-- Python's default float formatting `f"{x}"`, idealised over `ℚ`: sign,
integer part, then the exact terminating decimal expansion of the fraction
("N.0" for integral values).  Python floats are dyadic rationals, so their
expansions terminate; `str(float)` prints the shortest round-tripping
decimal, which agrees with the exact expansion on every value the claims
evaluate. -/
def pyFloatStr (q : ℚ) : String :=
  let sign := if q < 0 then "-" else ""
  let a := if q < 0 then -q else q
  let ip := Rat.floor a
  let ds := fracDigits (a - (ip : ℚ)) 17
  sign ++ toString ip ++ "."
    ++ (if ds.isEmpty then "0" else String.mk (ds.map Nat.digitChar))

def pad2 (n : ℕ) : String := if n < 10 then "0" ++ toString n else toString n

/-- Round half to even to the nearest integer. -/
def rhe (q : ℚ) : ℤ :=
  let fl := Rat.floor q
  let fr := q - (fl : ℚ)
  if fr < 1 / 2 then fl
  else if (1 : ℚ) / 2 < fr then fl + 1
  else if fl % 2 = 0 then fl else fl + 1

/-- Python's `f"{x:.2f}"`, idealised over `ℚ`: the value rounded (half to
even) to hundredths, always printed with exactly two decimal places. -/
def format2 (q : ℚ) : String :=
  let m := rhe (q * 100)
  let sign := if m < 0 then "-" else ""
  let n := m.natAbs
  sign ++ toString (n / 100) ++ "." ++ pad2 (n % 100)

/-- Python `f"{m:02d}"`. -/
def pyFmt02d (m : ℤ) : String :=
  if 0 ≤ m ∧ m < 10 then "0" ++ toString m else toString m

/-- `SUM(duration)` over the logs whose stored `sleep_time` has the given
year (`strftime('%Y', ...) = str(year)`) and zero-padded month
(`strftime('%m', ...) = f"{month:02d}"`), with SQL's NULL sum turned into 0
by `or 0`. -/
def monthDurationSum (db : DB) (year month : ℤ) : ℚ :=
  ((db.sleep_logs.filter (fun r =>
      match parseStored r.sleep_time with
      | some t => t.1 == toString year && t.2.1 == pyFmt02d month
      | none => false)).map (fun r => r.duration)).foldl (· + ·) 0

/-- A `datetime.date`-like value for the goal endpoint's day arithmetic. -/
structure PyDate where
  year : ℤ
  month : ℕ
  day : ℕ
deriving DecidableEq

/-- `d - timedelta(days=1)` as pure calendar arithmetic.  `datetime`
subtraction additionally raises `OverflowError` when the result would fall
before `datetime.min` (year 1, January 1); `set_monthly_sleep_goal` checks
that case — for its day-1 minuends, exactly year 1 month 1 — before using
this function. -/
def subOneDay (d : PyDate) : PyDate :=
  if 1 < d.day then ⟨d.year, d.month, d.day - 1⟩
  else if 1 < d.month then ⟨d.year, d.month - 1, daysInMonth d.year (d.month - 1)⟩
  else ⟨d.year - 1, 12, 31⟩

/-- `(datetime(year, month + 1, 1) - timedelta(days=1)).day`, the code's
"days in month" computation; meaningful only when
`datetime(year, month + 1, 1)` is constructible. -/
def codeDaysInMonth (year month : ℤ) : ℕ :=
  (subOneDay ⟨year, (month + 1).toNat, 1⟩).day

def requiredOf (goal : SleepGoal) : ℚ :=
  goal.hours_per_night * (codeDaysInMonth goal.year goal.month : ℚ)

def achievedMessage (hours : ℚ) : String :=
  "You achieved your goal of sleeping " ++ pyFloatStr hours ++ " hours a day this month!"

def shortfallMessage (required logged : ℚ) : String :=
  "You didn't sleep well this month. Your goal was to sleep " ++ pyFloatStr required
    ++ " hours, but you only logged " ++ format2 logged ++ " hours."

/-- The JSON object returned by the monthly goal endpoint. -/
structure GoalResult where
  message : String
  total_logged_sleep : ℚ
  total_required_sleep : ℚ
deriving DecidableEq

/-- `@app.post("/sleep_goals/monthly_sleep_goal")`.  `datetime(goal.year,
goal.month + 1, 1)` validates its components; for `month = 12` it is asked
for month 13 and raises `ValueError`, which nothing in the handler catches.
When the components are valid, the subtraction
`datetime(year, month + 1, 1) - timedelta(days=1)` raises an uncaught
`OverflowError` if the result would precede `datetime.min` — with day 1
that happens exactly for `year = 1, month + 1 = 1`. -/
def set_monthly_sleep_goal (goal : SleepGoal) (db : DB) : Resp GoalResult × DB :=
  if 1 ≤ goal.year ∧ goal.year ≤ 9999 ∧ 1 ≤ goal.month + 1 ∧ goal.month + 1 ≤ 12 then
    if goal.year = 1 ∧ goal.month + 1 = 1 then
      (.uncaught "OverflowError: date value out of range", db)
    else
      let required := requiredOf goal
      let logged := monthDurationSum db goal.year goal.month
      if required ≤ logged then
        (.ok ⟨achievedMessage goal.hours_per_night, logged, required⟩, db)
      else
        (.ok ⟨shortfallMessage required logged, logged, required⟩, db)
  else
    (.uncaught "ValueError: month must be in 1..12", db)

/-- The handler a route dispatches to (one constructor per `@app.<method>`
registration, in source order, distinct even where the Python function
names collide). -/
inductive Handler where
  | addSleepLog
  | getAllSleepLogs
  | getSleepLogsByDate
  | updateSleepLog
  | deleteSleepLog
  | getAverageSleepDuration
  | getFrequentSleepTime
  | getFrequentWakeTime
  | getLongestSleep
  | getShortestSleep
  | getSleepLogsByMonth
  | getSleepLogsByYear
  | setMonthlySleepGoal
  | getDailySleepSummary
  | getSleepLogHistory
  | addRecommendations
  | recommendationList
  | updateRecommendationById
  | deleteRecommendationById
  | getRecommendationHistory
deriving DecidableEq

/-- One path segment of a route pattern: a literal, or a `{param}`
converter (Starlette's default `str` converter, matching one non-empty
slash-free segment). -/
inductive Seg where
  | lit : String → Seg
  | param : Seg
deriving DecidableEq

structure Route where
  method : String
  leadingSlash : Bool
  segs : List Seg
  handler : Handler
deriving DecidableEq

def segsMatch : List Seg → List String → Bool
  | [], [] => true
  | Seg.lit s :: ps, x :: xs => s == x && segsMatch ps xs
  | Seg.param :: ps, _ :: xs => segsMatch ps xs
  | _, _ => false

/-- The route table, in registration order (FastAPI/Starlette tries routes
in this order and uses the first match).  `"sleep_logs/history"` is
registered without a leading slash in the source, so it can never match a
request path (which always starts with `/`). -/
def routes : List Route := [
  ⟨"POST", true, [.lit "sleep_logs"], .addSleepLog⟩,
  ⟨"GET", true, [.lit "sleep_logs"], .getAllSleepLogs⟩,
  ⟨"GET", true, [.lit "sleep_logs", .param], .getSleepLogsByDate⟩,
  ⟨"PUT", true, [.lit "sleep_logs", .param], .updateSleepLog⟩,
  ⟨"DELETE", true, [.lit "sleep_logs", .param], .deleteSleepLog⟩,
  ⟨"GET", true, [.lit "sleep_logs", .lit "average_duration"], .getAverageSleepDuration⟩,
  ⟨"GET", true, [.lit "sleep_logs", .lit "frequent_sleep_time"], .getFrequentSleepTime⟩,
  ⟨"GET", true, [.lit "sleep_logs", .lit "frequent_wake_time"], .getFrequentWakeTime⟩,
  ⟨"GET", true, [.lit "sleep_logs", .lit "longest_sleep"], .getLongestSleep⟩,
  ⟨"GET", true, [.lit "sleep_logs", .lit "shortest_sleep"], .getShortestSleep⟩,
  ⟨"GET", true, [.lit "sleep_logs", .lit "month", .param, .param], .getSleepLogsByMonth⟩,
  ⟨"GET", true, [.lit "sleep_logs", .lit "year", .param], .getSleepLogsByYear⟩,
  ⟨"POST", true, [.lit "sleep_goals", .lit "monthly_sleep_goal"], .setMonthlySleepGoal⟩,
  ⟨"GET", true, [.lit "sleep_logs", .lit "summary", .param], .getDailySleepSummary⟩,
  ⟨"GET", false, [.lit "sleep_logs", .lit "history"], .getSleepLogHistory⟩,
  ⟨"POST", true, [.lit "recommendations"], .addRecommendations⟩,
  ⟨"GET", true, [.lit "recommendations"], .recommendationList⟩,
  ⟨"PUT", true, [.lit "recommendations", .param], .updateRecommendationById⟩,
  ⟨"DELETE", true, [.lit "recommendations", .param], .deleteRecommendationById⟩,
  ⟨"GET", true, [.lit "recommendations", .lit "history"], .getRecommendationHistory⟩]

/-- First-match dispatch of a request (method, path split at slashes). -/
def routeLookup (method : String) (path : List String) : Option Handler :=
  (routes.find? (fun r =>
      r.leadingSlash && r.method == method && segsMatch r.segs path)).map
    (fun r => r.handler)

/-- Substring test over the character lists of two strings. -/
def strContains (hay needle : String) : Bool :=
  (List.range (hay.toList.length + 1)).any
    (fun i => needle.toList.isPrefixOf (hay.toList.drop i))

/-- A sample database: one sleep log (8 hours on 2024-05-01), one archived
log, one recommendation, one archived recommendation. -/
def sampleDB : DB :=
  ⟨[⟨1, "2024-05-01 22:00", "2024-05-02 06:00", 8⟩],
   [⟨"2024-01-01 23:00", "2024-01-02 07:00", 8⟩],
   [⟨1, "Sleep early"⟩], ["Old note"], 2, 2⟩

/-- A database whose February 2024 logs sum to 200 hours. -/
def febDB : DB :=
  ⟨[⟨1, "2024-02-10 22:00", "2024-02-11 06:00", 200⟩], [], [], [], 2, 1⟩

theorem rat_floor_eq_floor (q : ℚ) : Rat.floor q = ⌊q⌋ := rfl

theorem fracDigits_zero (k : ℕ) : fracDigits 0 k = [] := by
  cases k with
  | zero => rfl
  | succ n => simp [fracDigits]

theorem pyFloatStr_232 : pyFloatStr 232 = "232.0" := by
  norm_num [pyFloatStr, rat_floor_eq_floor, fracDigits_zero]
  rfl

theorem format2_200 : format2 200 = "200.00" := by
  norm_num [format2, rhe, rat_floor_eq_floor, pad2]
  rfl

theorem format2_0 : format2 0 = "0.00" := by
  norm_num [format2, rhe, rat_floor_eq_floor, pad2]
  rfl

theorem monthSum_feb : monthDurationSum febDB 2024 2 = 200 := by
  have h : monthDurationSum febDB 2024 2 = List.foldl (· + ·) (0 : ℚ) [(200 : ℚ)] := rfl
  rw [h]
  simp [List.foldl]

theorem required_feb_2024 : requiredOf ⟨2024, 2, 8⟩ = 232 := by
  have h29 : codeDaysInMonth 2024 2 = 29 := by rfl
  unfold requiredOf
  rw [h29]; norm_num

/-- C1: the monthly goal evaluation is calendar-correct for February of a
leap year (29 days, total 232.0 required hours for 8 hours per night), but
for `month = 12` the code builds `datetime(year, 13, 1)`, which raises an
uncaught `ValueError` instead of returning `hours_per_night × 31`: the
claim that the evaluation computes `days_in_month` and succeeds for every
month from 1 to 12 — month 12 in particular — fails on the code. -/
theorem c1_monthly_goal_december_valueerror :
    set_monthly_sleep_goal ⟨2024, 12, 8⟩ emptyDB
      = (.uncaught "ValueError: month must be in 1..12", emptyDB)
    ∧ (set_monthly_sleep_goal ⟨2024, 2, 8⟩ febDB).1
      = .ok ⟨"You didn't sleep well this month. Your goal was to sleep 232.0 hours, but you only logged 200.00 hours.", 200, 232⟩
    ∧ codeDaysInMonth 2024 2 = 29 ∧ daysInMonth 2024 2 = 29 := by
  refine ⟨rfl, ?_, rfl, rfl⟩
  have hle : ¬ (requiredOf ⟨2024, 2, 8⟩ ≤ monthDurationSum febDB 2024 2) := by
    rw [required_feb_2024, monthSum_feb]; norm_num
  unfold set_monthly_sleep_goal
  rw [if_pos (by decide), if_neg (by decide)]
  simp only []
  rw [if_neg hle, monthSum_feb, required_feb_2024, shortfallMessage, pyFloatStr_232,
    format2_200]
  rfl

/-- C4: updating a sleep log or a recommendation under an id that is not in
the store does not surface as an HTTP 404: the raised
`HTTPException(404, ...)` is caught by the handler's own blanket
`except Exception` and re-raised as an HTTP 500 whose detail merely embeds
the not-found text.  The tables are left unchanged. -/
theorem c4_update_missing_id_returns_500 :
    update_sleep_log 9999 ⟨"2024-05-01 22:00", "2024-05-02 06:00", 8⟩ sampleDB
      = (.httpError 500 "404: Sleep log not found", sampleDB)
    ∧ update_recommendation 9999 "Drink water" sampleDB
      = (.httpError 500 "Error: 404: Recommendation not found", sampleDB)
    ∧ isClientError
        (update_sleep_log 9999 ⟨"2024-05-01 22:00", "2024-05-02 06:00", 8⟩ sampleDB).1
      = false := by
  exact ⟨rfl, rfl, rfl⟩

/-- C6: the route `GET /sleep_logs/{date}` is registered before the literal
aggregate routes and FastAPI dispatches to the first match, so a request to
the literal path `/sleep_logs/average_duration` (and to the other
single-segment literal aggregate paths) is answered by the date-prefix read
with the literal as `date` — an empty list on `sampleDB` — and never by the
aggregate handler.  Two-segment routes such as
`/sleep_logs/month/{year}/{month}` are not shadowed. -/
theorem c6_average_route_shadowed :
    routeLookup "GET" ["sleep_logs", "average_duration"] = some Handler.getSleepLogsByDate
    ∧ routeLookup "GET" ["sleep_logs", "frequent_sleep_time"] = some Handler.getSleepLogsByDate
    ∧ routeLookup "GET" ["sleep_logs", "frequent_wake_time"] = some Handler.getSleepLogsByDate
    ∧ routeLookup "GET" ["sleep_logs", "longest_sleep"] = some Handler.getSleepLogsByDate
    ∧ routeLookup "GET" ["sleep_logs", "shortest_sleep"] = some Handler.getSleepLogsByDate
    ∧ Handler.getSleepLogsByDate ≠ Handler.getAverageSleepDuration
    ∧ (get_sleep_logs_by_date "average_duration" sampleDB).1 = .ok []
    ∧ (get_average_sleep_duration sampleDB).1 = .ok 8
    ∧ routeLookup "GET" ["sleep_logs", "month", "2024", "05"] = some Handler.getSleepLogsByMonth := by
  refine ⟨rfl, rfl, rfl, rfl, rfl, by decide, rfl, ?_, rfl⟩
  have h : (get_average_sleep_duration sampleDB).1 = .ok (((0 : ℚ) + 8) / ((1 : ℕ) : ℚ)) := rfl
  rw [h]
  norm_num

/-- C7 counterexample: a create request whose `sleep_time` does not parse
fails with the uncaught `strptime` `ValueError` — a generic server error,
not a client-error validation response — though indeed no row is
inserted. -/
theorem c7_unparsable_create_counterexample :
    add_sleep_log ⟨"bad", "2024-01-01 00:00", 0⟩ emptyDB
      = (.uncaught "time data 'bad' does not match format '%Y-%m-%d %H:%M'", emptyDB)
    ∧ isClientError (add_sleep_log ⟨"bad", "2024-01-01 00:00", 0⟩ emptyDB).1 = false := by
  exact ⟨rfl, rfl⟩

/-- C8 counterexample: with the spec's own instance (February 2024, 8 hours
per night, 200 hours logged) the shortfall message renders the required
total with Python's default float formatting — the text contains "232.0"
followed by a space, never "232.00" — while only the logged total is
formatted to two decimal places. -/
theorem c8_shortfall_format_counterexample :
    (set_monthly_sleep_goal ⟨2024, 2, 8⟩ febDB).1
      = .ok ⟨shortfallMessage 232 200, 200, 232⟩
    ∧ shortfallMessage 232 200
      = "You didn't sleep well this month. Your goal was to sleep 232.0 hours, but you only logged 200.00 hours."
    ∧ strContains
        "You didn't sleep well this month. Your goal was to sleep 232.0 hours, but you only logged 200.00 hours."
        "200.00" = true
    ∧ strContains
        "You didn't sleep well this month. Your goal was to sleep 232.0 hours, but you only logged 200.00 hours."
        "232.00" = false := by
  refine ⟨?_, ?_, rfl, rfl⟩
  · have hle : ¬ (requiredOf ⟨2024, 2, 8⟩ ≤ monthDurationSum febDB 2024 2) := by
      rw [required_feb_2024, monthSum_feb]; norm_num
    unfold set_monthly_sleep_goal
    rw [if_pos (by decide), if_neg (by decide)]
    simp only []
    rw [if_neg hle, monthSum_feb, required_feb_2024]
  · rw [shortfallMessage, pyFloatStr_232, format2_200]
    rfl

/-- C2: on both create and update, whenever the two submitted timestamps
parse, the stored duration is `durationHours` of the parsed values — the
hours between the parsed timestamps — and a request differing only in the
client-supplied `duration` field produces the identical response and
database state. -/
theorem c2_duration_recomputed (log : SleepLog) (d : ℚ) (db : DB) (st wt : PyDateTime)
    (i : ℕ) (r₀ : SleepRow)
    (hs : strptime log.sleep_time = some st) (hw : strptime log.wake_time = some wt)
    (hfind : db.sleep_logs.find? (fun r => r.id == i) = some r₀) :
    (add_sleep_log log db).2.sleep_logs
      = db.sleep_logs ++ [⟨db.nextLogId, log.sleep_time, log.wake_time, durationHours st wt⟩]
    ∧ add_sleep_log ⟨log.sleep_time, log.wake_time, d⟩ db = add_sleep_log log db
    ∧ (update_sleep_log i log db).2.sleep_logs
      = db.sleep_logs.map (fun r =>
          if r.id == i then ⟨r.id, log.sleep_time, log.wake_time, durationHours st wt⟩ else r)
    ∧ update_sleep_log i ⟨log.sleep_time, log.wake_time, d⟩ db = update_sleep_log i log db := by
  refine ⟨?_, ?_, ?_, ?_⟩ <;> simp [add_sleep_log, update_sleep_log, hs, hw, hfind]

def c2log : SleepLog := ⟨"2024-05-01 22:00", "2024-05-02 06:00", 99⟩

theorem c2_duration_recomputed_witness :
    strptime "2024-05-01 22:00" = some ⟨2024, 5, 1, 22, 0⟩
    ∧ strptime "2024-05-02 06:00" = some ⟨2024, 5, 2, 6, 0⟩
    ∧ sampleDB.sleep_logs.find? (fun r => r.id == 1)
      = some ⟨1, "2024-05-01 22:00", "2024-05-02 06:00", 8⟩
    ∧ ((add_sleep_log c2log sampleDB).2.sleep_logs
        = sampleDB.sleep_logs
          ++ [⟨sampleDB.nextLogId, c2log.sleep_time, c2log.wake_time,
               durationHours ⟨2024, 5, 1, 22, 0⟩ ⟨2024, 5, 2, 6, 0⟩⟩]
      ∧ add_sleep_log ⟨c2log.sleep_time, c2log.wake_time, 3⟩ sampleDB
        = add_sleep_log c2log sampleDB
      ∧ (update_sleep_log 1 c2log sampleDB).2.sleep_logs
        = sampleDB.sleep_logs.map (fun r =>
            if r.id == 1 then
              ⟨r.id, c2log.sleep_time, c2log.wake_time,
               durationHours ⟨2024, 5, 1, 22, 0⟩ ⟨2024, 5, 2, 6, 0⟩⟩
            else r)
      ∧ update_sleep_log 1 ⟨c2log.sleep_time, c2log.wake_time, 3⟩ sampleDB
        = update_sleep_log 1 c2log sampleDB) :=
  ⟨rfl, rfl, rfl,
    c2_duration_recomputed c2log 3 sampleDB ⟨2024, 5, 1, 22, 0⟩ ⟨2024, 5, 2, 6, 0⟩ 1
      ⟨1, "2024-05-01 22:00", "2024-05-02 06:00", 8⟩ rfl rfl rfl⟩

/-- C3: deleting a sleep log or a recommendation under an id that is not in
the store fetches no row, so the history-copy insert crashes on the `None`
row — the surfaced error is the subscript `TypeError`, not the (never
reached) not-found response — and both the live table and the history table
are left exactly as they were. -/
theorem c3_delete_missing_id_history_insert_fails (db : DB) (i j : ℕ)
    (h1 : db.sleep_logs.find? (fun r => r.id == i) = none)
    (h2 : db.sleep_recommendations.find? (fun r => r.id == j) = none) :
    delete_sleep_log i db = (.httpError 500 "'NoneType' object is not subscriptable", db)
    ∧ delete_recommendation j db
      = (.httpError 500 "Error: 'NoneType' object is not subscriptable", db) := by
  constructor
  · simp [delete_sleep_log, h1]
  · simp [delete_recommendation, h2]

theorem c3_delete_missing_id_history_insert_fails_witness :
    emptyDB.sleep_logs.find? (fun r => r.id == 5) = none
    ∧ emptyDB.sleep_recommendations.find? (fun r => r.id == 5) = none
    ∧ (delete_sleep_log 5 emptyDB
        = (.httpError 500 "'NoneType' object is not subscriptable", emptyDB)
      ∧ delete_recommendation 5 emptyDB
        = (.httpError 500 "Error: 'NoneType' object is not subscriptable", emptyDB)) :=
  ⟨rfl, rfl, c3_delete_missing_id_history_insert_fails emptyDB 5 5 rfl rfl⟩

/-- C7 (amended): a create request with an unparsable timestamp fails with
the uncaught `strptime` exception — surfaced as a generic server error,
not as a client-error validation response — and no row is inserted (the
whole database is untouched). -/
theorem c7_unparsable_create_server_error (log : SleepLog) (db : DB)
    (h : strptime log.sleep_time = none ∨ strptime log.wake_time = none) :
    isUncaught (add_sleep_log log db).1 = true
    ∧ isClientError (add_sleep_log log db).1 = false
    ∧ (add_sleep_log log db).2 = db := by
  rcases h with h | h
  · refine ⟨?_, ?_, ?_⟩ <;> simp [add_sleep_log, h, isUncaught, isClientError]
  · cases hst : strptime log.sleep_time with
    | none => refine ⟨?_, ?_, ?_⟩ <;> simp [add_sleep_log, hst, isUncaught, isClientError]
    | some st =>
      refine ⟨?_, ?_, ?_⟩ <;> simp [add_sleep_log, hst, h, isUncaught, isClientError]

theorem c7_unparsable_create_server_error_witness :
    (strptime "bad" = none ∨ strptime "2024-13-01 00:00" = none)
    ∧ (isUncaught (add_sleep_log ⟨"bad", "2024-13-01 00:00", 7⟩ sampleDB).1 = true
      ∧ isClientError (add_sleep_log ⟨"bad", "2024-13-01 00:00", 7⟩ sampleDB).1 = false
      ∧ (add_sleep_log ⟨"bad", "2024-13-01 00:00", 7⟩ sampleDB).2 = sampleDB) :=
  ⟨Or.inl rfl,
    c7_unparsable_create_server_error ⟨"bad", "2024-13-01 00:00", 7⟩ sampleDB (Or.inl rfl)⟩

/-- C10: on an empty `sleep_logs` table the frequent-sleep-hour and
frequent-wake-hour handlers crash on the absent grouped row (an uncaught
subscript error, surfaced as a generic server error), while the
average/longest/shortest aggregates return 0. -/
theorem c10_frequent_empty_uncaught (db : DB) (h : db.sleep_logs = []) :
    get_frequent_sleep_time db = (.uncaught "'NoneType' object is not subscriptable", db)
    ∧ get_frequent_wake_time db = (.uncaught "'NoneType' object is not subscriptable", db)
    ∧ get_average_sleep_duration db = (.ok 0, db)
    ∧ get_longest_sleep_duration db = (.ok 0, db)
    ∧ get_shortest_sleep_duration db = (.ok 0, db) := by
  refine ⟨?_, ?_, ?_, ?_, ?_⟩ <;>
    simp [get_frequent_sleep_time, get_frequent_wake_time, get_average_sleep_duration,
      get_longest_sleep_duration, get_shortest_sleep_duration, hourGroups, topGroup, h]

theorem c10_frequent_empty_uncaught_witness :
    emptyDB.sleep_logs = []
    ∧ (get_frequent_sleep_time emptyDB
        = (.uncaught "'NoneType' object is not subscriptable", emptyDB)
      ∧ get_frequent_wake_time emptyDB
        = (.uncaught "'NoneType' object is not subscriptable", emptyDB)
      ∧ get_average_sleep_duration emptyDB = (.ok 0, emptyDB)
      ∧ get_longest_sleep_duration emptyDB = (.ok 0, emptyDB)
      ∧ get_shortest_sleep_duration emptyDB = (.ok 0, emptyDB)) :=
  ⟨rfl, c10_frequent_empty_uncaught emptyDB rfl⟩

/-- If `find?` hits `a`, the list splits as `l₁ ++ a :: l₂` with the
predicate false on all of `l₁`. -/
theorem find_some_split {α : Type} (p : α → Bool) (l : List α) (a : α)
    (h : l.find? p = some a) :
    ∃ l₁ l₂, l = l₁ ++ a :: l₂ ∧ ∀ x ∈ l₁, p x = false := by
  induction l with
  | nil => simp at h
  | cons b t ih =>
    cases hb : p b with
    | true =>
      rw [List.find?_cons_of_pos _ hb] at h
      obtain rfl : b = a := by injection h
      exact ⟨[], t, rfl, by simp⟩
    | false =>
      rw [List.find?_cons_of_neg _ (by simp [hb])] at h
      obtain ⟨l₁, l₂, rfl, hl₁⟩ := ih h
      refine ⟨b :: l₁, l₂, rfl, ?_⟩
      intro x hx
      rcases List.mem_cons.mp hx with rfl | hx
      · exact hb
      · exact hl₁ x hx

/-- C5: deleting a sleep log whose id occurs (exactly once) in the live
table removes exactly that row — the rows before and after it are kept in
place — and appends exactly one history row carrying the deleted row's
`(sleep_time, wake_time, duration)` triple; the recommendation tables are
untouched. -/
theorem c5_delete_archives_row (db : DB) (i : ℕ) (row : SleepRow)
    (hf : db.sleep_logs.find? (fun r => r.id == i) = some row)
    (hc : db.sleep_logs.countP (fun r => r.id == i) = 1) :
    (delete_sleep_log i db).1 = .ok "Sleep log deleted successfully!"
    ∧ (∃ l₁ l₂, db.sleep_logs = l₁ ++ row :: l₂
        ∧ (delete_sleep_log i db).2.sleep_logs = l₁ ++ l₂)
    ∧ (delete_sleep_log i db).2.history
      = db.history ++ [⟨row.sleep_time, row.wake_time, row.duration⟩]
    ∧ (delete_sleep_log i db).2.sleep_recommendations = db.sleep_recommendations
    ∧ (delete_sleep_log i db).2.recommendation_history = db.recommendation_history := by
  have hrow : (fun (r : SleepRow) => r.id == i) row = true :=
    @List.find?_some SleepRow (fun r => r.id == i) row db.sleep_logs hf
  obtain ⟨l₁, l₂, hsplit, hl₁⟩ := find_some_split (fun r => r.id == i) db.sleep_logs row hf
  have hl1z : l₁.countP (fun r => r.id == i) = 0 :=
    List.countP_eq_zero.mpr (fun x hx => by simp [hl₁ x hx])
  have hl2z : l₂.countP (fun r => r.id == i) = 0 := by
    have h' := hc
    rw [hsplit, List.countP_append,
      List.countP_cons_of_pos (fun (r : SleepRow) => r.id == i) _ hrow, hl1z] at h'
    omega
  have hfil : db.sleep_logs.filter (fun r => !(r.id == i)) = l₁ ++ l₂ := by
    rw [hsplit, List.filter_append, List.filter_cons_of_neg (by simp [hrow])]
    rw [List.filter_eq_self.mpr (fun x hx => by simp [hl₁ x hx]),
      List.filter_eq_self.mpr (fun x hx => by
        have := List.countP_eq_zero.mp hl2z x hx
        simpa using this)]
  refine ⟨?_, ⟨l₁, l₂, hsplit, ?_⟩, ?_, ?_, ?_⟩ <;>
    simp [delete_sleep_log, hf, hc, hfil]

def c5row : SleepRow := ⟨1, "2024-05-01 22:00", "2024-05-02 06:00", 8⟩

theorem c5_delete_archives_row_witness :
    sampleDB.sleep_logs.find? (fun r => r.id == 1) = some c5row
    ∧ sampleDB.sleep_logs.countP (fun r => r.id == 1) = 1
    ∧ ((delete_sleep_log 1 sampleDB).1 = .ok "Sleep log deleted successfully!"
      ∧ (∃ l₁ l₂, sampleDB.sleep_logs = l₁ ++ c5row :: l₂
          ∧ (delete_sleep_log 1 sampleDB).2.sleep_logs = l₁ ++ l₂)
      ∧ (delete_sleep_log 1 sampleDB).2.history
        = sampleDB.history ++ [⟨c5row.sleep_time, c5row.wake_time, c5row.duration⟩]
      ∧ (delete_sleep_log 1 sampleDB).2.sleep_recommendations = sampleDB.sleep_recommendations
      ∧ (delete_sleep_log 1 sampleDB).2.recommendation_history
        = sampleDB.recommendation_history) :=
  ⟨rfl, rfl, c5_delete_archives_row sampleDB 1 c5row rfl rfl⟩

theorem sfx_mem_append (w t : List Char) : t ∈ sfx (w ++ t) := by
  induction w with
  | nil =>
    cases t with
    | nil => simp [sfx]
    | cons c s => simp [sfx]
  | cons c w' ih =>
    simp only [List.cons_append, sfx]
    exact List.mem_cons_of_mem _ ih

theorem sfx_split (s t : List Char) (h : t ∈ sfx s) : ∃ w, s = w ++ t := by
  induction s with
  | nil =>
    simp [sfx] at h
    exact ⟨[], by simp [h]⟩
  | cons c s' ih =>
    simp only [sfx, List.mem_cons] at h
    rcases h with rfl | h
    · exact ⟨[], rfl⟩
    · obtain ⟨w, rfl⟩ := ih h
      exact ⟨c :: w, rfl⟩

theorem likeMatch_pct (s : List Char) : likeMatch ['%'] s = true := by
  have hmem : ([] : List Char) ∈ sfx s := by
    have := sfx_mem_append s []
    simpa using this
  have hrw : likeMatch ['%'] s = (sfx s).any (fun t => t.isEmpty) := by
    simp [likeMatch]
  rw [hrw]
  exact List.any_eq_true.mpr ⟨[], hmem, rfl⟩

theorem likeMatch_append_of (P : List Char) :
    ∀ (Q u v : List Char), likeMatch P u = true → likeMatch Q v = true →
      likeMatch (P ++ Q) (u ++ v) = true := by
  induction P with
  | nil =>
    intro Q u v hu hv
    have : u = [] := by
      cases u with
      | nil => rfl
      | cons c s => simp [likeMatch] at hu
    subst this
    simpa using hv
  | cons p P' ih =>
    intro Q u v hu hv
    by_cases hp : p = '%'
    · subst hp
      simp only [likeMatch, if_pos rfl] at hu
      obtain ⟨t, hmem, ht⟩ := List.any_eq_true.mp hu
      obtain ⟨w, rfl⟩ := sfx_split u t hmem
      have hstep := ih Q t v ht hv
      simp only [List.cons_append, likeMatch, if_pos rfl]
      refine List.any_eq_true.mpr ⟨t ++ v, ?_, hstep⟩
      rw [List.append_assoc]
      exact sfx_mem_append w (t ++ v)
    · cases u with
      | nil => simp [likeMatch, hp] at hu
      | cons c u' =>
        by_cases hu' : p = '_'
        · subst hu'
          simp only [likeMatch, if_neg hp, if_pos rfl] at hu
          simp only [List.cons_append, likeMatch, if_neg hp, if_pos rfl]
          exact ih Q u' v hu hv
        · simp only [likeMatch, if_neg hp, if_neg hu', Bool.and_eq_true] at hu
          simp only [List.cons_append, likeMatch, if_neg hp, if_neg hu', Bool.and_eq_true]
          exact ⟨hu.1, ih Q u' v hu.2 hv⟩

theorem likeMatch_append_split (P : List Char) :
    ∀ (Q x : List Char), likeMatch (P ++ Q) x = true →
      ∃ u v, x = u ++ v ∧ likeMatch P u = true ∧ likeMatch Q v = true := by
  induction P with
  | nil =>
    intro Q x h
    exact ⟨[], x, rfl, rfl, by simpa using h⟩
  | cons p P' ih =>
    intro Q x h
    by_cases hp : p = '%'
    · subst hp
      simp only [List.cons_append, likeMatch, if_pos rfl] at h
      obtain ⟨t, hmem, ht⟩ := List.any_eq_true.mp h
      obtain ⟨w, rfl⟩ := sfx_split x t hmem
      obtain ⟨u, v, rfl, hu, hv⟩ := ih Q t ht
      refine ⟨w ++ u, v, by rw [List.append_assoc], ?_, hv⟩
      simp only [likeMatch, if_pos rfl]
      exact List.any_eq_true.mpr ⟨u, sfx_mem_append w u, hu⟩
    · cases x with
      | nil => simp [likeMatch, hp] at h
      | cons c x' =>
        by_cases hu' : p = '_'
        · subst hu'
          simp only [List.cons_append, likeMatch, if_neg hp, if_pos rfl] at h
          obtain ⟨u, v, rfl, hu, hv⟩ := ih Q x' h
          exact ⟨c :: u, v, rfl, by simp [likeMatch, hp, hu], hv⟩
        · simp only [List.cons_append, likeMatch, if_neg hp, if_neg hu',
            Bool.and_eq_true] at h
          obtain ⟨u, v, rfl, hu, hv⟩ := ih Q x' h.2
          refine ⟨c :: u, v, rfl, ?_, hv⟩
          simp [likeMatch, hp, hu', hu, h.1]

theorem str_toList_append (a b : String) : (a ++ b).toList = a.toList ++ b.toList := by
  cases a
  cases b
  rfl

/-- C9: date-prefix reads are monotonic in specificity — every row returned
for the longer prefix `p ++ s` is also returned for `p` (this holds for the
full `LIKE` semantics of the query, wildcards included). -/
theorem c9_prefix_monotonic (db : DB) (p s : String) (r : SleepRow)
    (h : r ∈ sleepLogsByDate (p ++ s) db) : r ∈ sleepLogsByDate p db := by
  rw [sleepLogsByDate, List.mem_filter] at h ⊢
  refine ⟨h.1, ?_⟩
  have hm := h.2
  rw [str_toList_append, str_toList_append] at hm
  obtain ⟨u, v, hx, hu, hv⟩ :=
    likeMatch_append_split p.toList (s.toList ++ "%".toList) r.sleep_time.toList
      (by rw [← List.append_assoc]; exact hm)
  rw [str_toList_append, hx]
  have hpct : likeMatch "%".toList v = true := likeMatch_pct v
  exact likeMatch_append_of p.toList "%".toList u v hu hpct

theorem c9_prefix_monotonic_witness :
    c5row ∈ sleepLogsByDate ("2024-05" ++ "-01") sampleDB
    ∧ c5row ∈ sleepLogsByDate "2024-05" sampleDB :=
  ⟨by decide, c9_prefix_monotonic sampleDB "2024-05" "-01" c5row (by decide)⟩

theorem isPrefixOf_self_append (a t : List Char) : a.isPrefixOf (a ++ t) = true := by
  induction a with
  | nil => cases t <;> rfl
  | cons c a' ih => simp [List.isPrefixOf, ih]

theorem strContains_append (a b c : String) : strContains (a ++ b ++ c) b = true := by
  rw [strContains]
  refine List.any_eq_true.mpr ⟨a.toList.length, ?_, ?_⟩
  · rw [List.mem_range, str_toList_append, str_toList_append, List.length_append,
      List.length_append]
    omega
  · rw [str_toList_append, str_toList_append, List.append_assoc, List.drop_left]
    exact isPrefixOf_self_append b.toList c.toList

/-- C8 (amended): whenever the goal evaluation reaches the shortfall branch
(valid `datetime` components, no `OverflowError` from the day subtraction —
which within the valid range hits exactly `year = 1, month + 1 = 1` — and
logged total short of the required total), the returned shortfall message
contains the logged total formatted to exactly two decimal places, but
contains the required total rendered by Python's default float formatting
(e.g. "232.0"), not a two-decimal rendering. -/
theorem c8_shortfall_logged_two_decimals (goal : SleepGoal) (db : DB)
    (hm : 1 ≤ goal.year ∧ goal.year ≤ 9999 ∧ 1 ≤ goal.month + 1 ∧ goal.month + 1 ≤ 12)
    (hov : ¬ (goal.year = 1 ∧ goal.month + 1 = 1))
    (hlt : monthDurationSum db goal.year goal.month < requiredOf goal) :
    (set_monthly_sleep_goal goal db).1
      = .ok ⟨shortfallMessage (requiredOf goal) (monthDurationSum db goal.year goal.month),
             monthDurationSum db goal.year goal.month, requiredOf goal⟩
    ∧ strContains
        (shortfallMessage (requiredOf goal) (monthDurationSum db goal.year goal.month))
        (format2 (monthDurationSum db goal.year goal.month)) = true
    ∧ strContains
        (shortfallMessage (requiredOf goal) (monthDurationSum db goal.year goal.month))
        (pyFloatStr (requiredOf goal)) = true := by
  refine ⟨?_, ?_, ?_⟩
  · unfold set_monthly_sleep_goal
    rw [if_pos hm, if_neg hov]
    simp only []
    rw [if_neg (not_le.mpr hlt)]
  · unfold shortfallMessage
    exact strContains_append _ _ _
  · unfold shortfallMessage
    rw [String.append_assoc, String.append_assoc]
    exact strContains_append _ _ _

theorem c8_shortfall_logged_two_decimals_witness :
    (1 ≤ (2024 : ℤ) ∧ (2024 : ℤ) ≤ 9999 ∧ 1 ≤ (2 : ℤ) + 1 ∧ (2 : ℤ) + 1 ≤ 12)
    ∧ ¬ ((2024 : ℤ) = 1 ∧ (2 : ℤ) + 1 = 1)
    ∧ monthDurationSum febDB 2024 2 < requiredOf ⟨2024, 2, 8⟩
    ∧ ((set_monthly_sleep_goal ⟨2024, 2, 8⟩ febDB).1
        = .ok ⟨shortfallMessage (requiredOf ⟨2024, 2, 8⟩) (monthDurationSum febDB 2024 2),
               monthDurationSum febDB 2024 2, requiredOf ⟨2024, 2, 8⟩⟩
      ∧ strContains
          (shortfallMessage (requiredOf ⟨2024, 2, 8⟩) (monthDurationSum febDB 2024 2))
          (format2 (monthDurationSum febDB 2024 2)) = true
      ∧ strContains
          (shortfallMessage (requiredOf ⟨2024, 2, 8⟩) (monthDurationSum febDB 2024 2))
          (pyFloatStr (requiredOf ⟨2024, 2, 8⟩)) = true) :=
  ⟨by decide, by decide, by norm_num [monthSum_feb, required_feb_2024],
    c8_shortfall_logged_two_decimals ⟨2024, 2, 8⟩ febDB (by decide) (by decide)
      (by norm_num [monthSum_feb, required_feb_2024])⟩
